import Mathlib

/-!
Verification development for the "freedom" countdown/progress repository.

The repository has two surfaces:
* a dashboard (`src/app/page.tsx`) rendering three fixed progress cards, and
* a share page (`src/unnamed/part_000`) rendering one registry entry chosen
  by `(target, unit)` path parameters, with generated preview metadata.

We shallowly embed the date/progress arithmetic of both files.  JavaScript
`Date` values are modelled as calendar records (year, 0-based month, day,
hour, minute, second, millisecond); `getTime` is the proleptic-Gregorian
conversion to milliseconds since the epoch, with the local timezone modelled
as UTC (fixed offset 0, no DST) — all date constructions and field reads in
the source happen in one timezone, so claims are offset-independent.
JavaScript number arithmetic on these quantities is modelled exactly over ℚ;
`Math.round x` is `⌊x + 1/2⌋` and `Math.ceil` is `⌈·⌉`.
-/

set_option autoImplicit false

/-- `Math.round` on an exact rational: round half toward positive infinity. -/
def jsRound (q : ℚ) : ℤ := ⌊q + 1/2⌋

/-- `Math.ceil` on an exact rational. -/
def jsCeil (q : ℚ) : ℤ := ⌈q⌉

/-- Days since 1970-01-01 of the proleptic-Gregorian civil date `(y, m, d)`
with 1-based month `m` — the calendar arithmetic underlying JavaScript
`Date` / `Date.UTC` (ECMA-262 `MakeDay`). -/
def daysFromCivil (y m d : ℤ) : ℤ :=
  let y2 := if m ≤ 2 then y - 1 else y
  let era := Int.fdiv y2 400
  let yoe := y2 - era * 400
  let doy := Int.fdiv (153 * (m + (if 2 < m then -3 else 9)) + 2) 5 + d - 1
  let doe := yoe * 365 + Int.fdiv yoe 4 - Int.fdiv yoe 100 + doy
  era * 146097 + doe - 719468

/-- A JavaScript `Date`, modelled by its (local-time) calendar components.
`month` is 0-based, as in the `new Date(year, month, day, hour, minute)`
constructor used throughout the source. -/
structure JSDate where
  year : ℤ
  month : ℤ
  day : ℤ
  hour : ℤ := 0
  minute : ℤ := 0
  sec : ℤ := 0
  ms : ℤ := 0
deriving DecidableEq, Repr, Inhabited

/-- `MS_PER_DAY = 24 * 60 * 60 * 1000` from the share page source. -/
def MS_PER_DAY : ℤ := 24 * 60 * 60 * 1000

/-- `Date.prototype.getTime`: epoch milliseconds of the modelled instant. -/
def JSDate.getTime (d : JSDate) : ℤ :=
  MS_PER_DAY * daysFromCivil d.year (d.month + 1) d.day
    + 3600000 * d.hour + 60000 * d.minute + 1000 * d.sec + d.ms

/-- A `Date` whose calendar fields are in the ranges JavaScript guarantees
for any actually-constructed `Date` (in particular for `new Date()`). -/
def JSDate.Valid (d : JSDate) : Prop :=
  0 ≤ d.month ∧ d.month ≤ 11 ∧ 1 ≤ d.day ∧ d.day ≤ 31 ∧
  0 ≤ d.hour ∧ d.hour ≤ 23 ∧ 0 ≤ d.minute ∧ d.minute ≤ 59 ∧
  0 ≤ d.sec ∧ d.sec ≤ 59 ∧ 0 ≤ d.ms ∧ d.ms ≤ 999

instance (d : JSDate) : Decidable d.Valid := by
  unfold JSDate.Valid; infer_instance

-- sanity checks on the calendar arithmetic
example : daysFromCivil 1970 1 1 = 0 := by decide
example : daysFromCivil 2025 9 2 = 20333 := by decide
example : (JSDate.mk 1970 0 1 0 0 0 0).getTime = 0 := by decide
example : jsRound (3/2) = 2 := by norm_num [jsRound]
example : jsRound (-1/2) = 0 := by norm_num [jsRound]
example : jsCeil (1/1000) = 1 := by norm_num [jsCeil, Int.ceil_eq_iff]

/-! ## Share page (`src/unnamed/part_000`) -/

/-- The `Target` union type of the share page. -/
inductive Target where
  | semester
  | year
  | school
deriving DecidableEq, Repr

/-- The `Unit` union type of the share page (`"days" | "hours" | "seconds"`).
Named `TimeUnit` because `Unit` is taken in Lean. -/
inductive TimeUnit where
  | days
  | hours
  | seconds
deriving DecidableEq, Repr

/-- One value of the share page's `items` registry record. -/
structure ShareItem where
  title : String
  accent : String
  start? : Option JSDate := none
  end? : Option JSDate := none
  getRange? : Option (ℤ → JSDate × JSDate) := none

/-- `items.semester.getRange` from the share page: before the cutoff instant
(Feb 2 2026, 11:45 local) the range is term 1, at/after it term 2. -/
def semesterGetRange (now : ℤ) : JSDate × JSDate :=
  let cutoff := (JSDate.mk 2026 1 2 11 45 0 0).getTime
  if cutoff ≤ now then
    (JSDate.mk 2026 1 2 11 45 0 0, JSDate.mk 2026 5 24 0 0 0 0)
  else
    (JSDate.mk 2025 8 2 0 0 0 0, JSDate.mk 2026 1 2 11 45 0 0)

/-- The share page's `items` registry. -/
def items : Target → ShareItem
  | .semester =>
    { title := "Semester", accent := "var(--accent-lilac)",
      getRange? := some semesterGetRange }
  | .year =>
    { title := "School year", accent := "var(--accent-sky)",
      start? := some (JSDate.mk 2025 8 2 0 0 0 0),
      end? := some (JSDate.mk 2026 5 24 0 0 0 0) }
  | .school =>
    { title := "High school", accent := "var(--accent-mint)",
      start? := some (JSDate.mk 2023 8 5 0 0 0 0),
      end? := some (JSDate.mk 2027 5 25 0 0 0 0) }

/-- `calculateDateDiffInDays`: whole-day difference of the two dates'
calendar (year, month, day) components, via `Date.UTC`, rounded and floored
at 0. -/
def calculateDateDiffInDays (endD now : JSDate) : ℤ :=
  let endUtc := MS_PER_DAY * daysFromCivil endD.year (endD.month + 1) endD.day
  let nowUtc := MS_PER_DAY * daysFromCivil now.year (now.month + 1) now.day
  max 0 (jsRound (((endUtc - nowUtc : ℤ) : ℚ) / (MS_PER_DAY : ℚ)))

/-- `calculateTimeLeft`.  In the source `now` is `new Date()`; here it is an
explicit argument. -/
def calculateTimeLeft (endD : JSDate) (now : JSDate) (unit : TimeUnit) : ℤ :=
  let timeLeftMs := max 0 (endD.getTime - now.getTime)
  match unit with
  | .days => calculateDateDiffInDays endD now
  | .hours => jsCeil ((timeLeftMs : ℚ) / (1000 * 60 * 60 : ℚ))
  | .seconds => jsCeil ((timeLeftMs : ℚ) / (1000 : ℚ))

/-- The core of `calculateProgress`, on epoch milliseconds. -/
def progressPercent (startMs endMs now : ℤ) : ℚ :=
  let total := endMs - startMs
  let elapsed := min (max (now - startMs) 0) total
  let ratio : ℚ := if total = 0 then 0 else (elapsed : ℚ) / (total : ℚ)
  (jsRound (ratio * 1000) : ℚ) / 10

/-- `calculateProgress`.  In the source `now` is `Date.now()`; here it is an
explicit argument. -/
def calculateProgress (start endD : JSDate) (now : ℤ) : ℚ :=
  progressPercent start.getTime endD.getTime now

/-- `resolveRange` of the share page: dynamic items use `getRange(Date.now())`,
static items their `start!`/`end!` fields. -/
def resolveRange (item : ShareItem) (now : ℤ) : JSDate × JSDate :=
  match item.getRange? with
  | some getRange => getRange now
  | none => (item.start?.getD default, item.end?.getD default)

/-- The own keys of the `items` object literal: a raw path segment parsed to
the registry entry it names, or `none` when it names no own property. -/
def lookupTarget (s : String) : Option Target :=
  if s = "semester" then some .semester
  else if s = "year" then some .year
  else if s = "school" then some .school
  else none

/-- The own property keys of `Object.prototype` (ECMA-262), which a plain
object literal such as `items` inherits.  For each of these keys `k`,
`items[k]` evaluates to the inherited method (or, for `__proto__`, to
`Object.prototype` itself) — a truthy value, not `undefined`. -/
def objectPrototypeKeys : List String :=
  ["constructor", "hasOwnProperty", "isPrototypeOf", "propertyIsEnumerable",
   "toLocaleString", "toString", "valueOf", "__proto__", "__defineGetter__",
   "__defineSetter__", "__lookupGetter__", "__lookupSetter__"]

/-- The result of the JavaScript member access `items[target]`: an own
registry entry, a truthy value inherited from `Object.prototype` (which is
not a registry entry — it has no `getRange`, `start` or `end` properties),
or `undefined`. -/
inductive MemberAccess where
  | own : Target → MemberAccess
  | inherited : MemberAccess
  | undefined : MemberAccess
deriving DecidableEq, Repr

/-- `items[target]` on a raw path segment.  Only the `undefined` outcome is
falsy, so only that outcome makes the `!items[target]` guard fire. -/
def itemsAccess (s : String) : MemberAccess :=
  match lookupTarget s with
  | some t => .own t
  | none => if s ∈ objectPrototypeKeys then .inherited else .undefined

/-- `["days", "hours", "seconds"].includes(unit)` on a raw path segment,
returning the parsed unit. -/
def lookupUnit (s : String) : Option TimeUnit :=
  if s = "days" then some .days
  else if s = "hours" then some .hours
  else if s = "seconds" then some .seconds
  else none

/-- The `Metadata` object built by `generateMetadata`.  The not-found branch
returns only `title: "Not Found"`, so all other fields are `none` there. -/
structure PageMetadata where
  title : String
  description : Option String := none
  ogTitle : Option String := none
  ogDescription : Option String := none
  twitterTitle : Option String := none
  twitterDescription : Option String := none
deriving DecidableEq, Repr

/-- Outcome of a share-surface entry point: either a normally returned value
or an escaped exception.  `thrown` models the `TypeError` raised when a
prototype-inherited key passes the `!items[target]` guard: `item.getRange`,
`item.start` and `item.end` are then `undefined`, so `resolveRange` yields
`undefined` bounds and `end.getTime()` inside `calculateTimeLeft` throws. -/
inductive JSResult (α : Type) where
  | thrown : JSResult α
  | value : α → JSResult α
deriving DecidableEq, Repr

/-- `generateMetadata` of the share page, with the current instant passed
explicitly (the source reads the clock via `resolveRange`/`calculateTimeLeft`). -/
def generateMetadata (target unit : String) (now : JSDate) :
    JSResult PageMetadata :=
  match itemsAccess target, lookupUnit unit with
  | .undefined, _ => .value { title := "Not Found" }
  | _, none => .value { title := "Not Found" }
  | .own t, some u =>
    let item := items t
    let range := resolveRange item now.getTime
    let timeLeft := calculateTimeLeft range.2 now u
    let description :=
      toString timeLeft ++ " " ++ unit ++ " left until " ++ item.title ++ " ends"
    .value
      { title := item.title ++ " - " ++ toString timeLeft ++ " " ++ unit ++ " left",
        description := some description,
        ogTitle := some item.title,
        ogDescription := some description,
        twitterTitle := some item.title,
        twitterDescription := some description }
  | .inherited, some _ => .thrown

/-- The data rendered by a successful `SharePage`. -/
structure SharePageView where
  title : String
  percent : ℚ
  timeLeft : ℤ
  unitName : String
deriving DecidableEq, Repr

/-- `SharePage`: `.value none` models the `notFound()` response,
`.value (some _)` the rendered page, `.thrown` an escaped `TypeError`. -/
def sharePage (target unit : String) (now : JSDate) :
    JSResult (Option SharePageView) :=
  match itemsAccess target, lookupUnit unit with
  | .undefined, _ => .value none
  | _, none => .value none
  | .own t, some u =>
    let item := items t
    let range := resolveRange item now.getTime
    let timeLeft := calculateTimeLeft range.2 now u
    let percent := calculateProgress range.1 range.2 now.getTime
    .value (some { title := item.title, percent := percent,
                   timeLeft := timeLeft, unitName := unit })
  | .inherited, some _ => .thrown

/-! ## Dashboard (`src/app/page.tsx`) -/

/-- `ProgressItem` of the dashboard. -/
structure ProgressItem where
  id : String
  title : String
  start : JSDate
  endD : JSDate
  accent : String

/-- The dashboard's `"semester"` entry. -/
def dashSemesterItem : ProgressItem :=
  { id := "semester", title := "Semester progress",
    start := JSDate.mk 2025 8 2 0 0 0 0, endD := JSDate.mk 2026 1 2 0 0 0 0,
    accent := "var(--accent-lilac)" }

/-- The dashboard's `"school-year"` entry (its `end` precedes its `start`). -/
def dashSchoolYearItem : ProgressItem :=
  { id := "school-year", title := "School year progress",
    start := JSDate.mk 2025 8 2 0 0 0 0, endD := JSDate.mk 2025 5 24 0 0 0 0,
    accent := "var(--accent-sky)" }

/-- The dashboard's `"high-school"` entry. -/
def dashHighSchoolItem : ProgressItem :=
  { id := "high-school", title := "High school progress",
    start := JSDate.mk 2023 8 5 0 0 0 0, endD := JSDate.mk 2027 5 25 0 0 0 0,
    accent := "var(--accent-mint)" }

/-- The dashboard's `items` list. -/
def dashItems : List ProgressItem :=
  [dashSemesterItem, dashSchoolYearItem, dashHighSchoolItem]

/-- `clamp` of the dashboard. -/
def clamp (value lo hi : ℤ) : ℤ := min (max value lo) hi

/-- `normalizeRange` of the dashboard: swap the bounds when `end <= start`. -/
def normalizeRange (start endMs : ℤ) : ℤ × ℤ :=
  if endMs ≤ start then (endMs, start) else (start, endMs)

/-- The percentage computed by the dashboard's `ProgressBar` component. -/
def progressBarPercent (item : ProgressItem) (now : ℤ) : ℚ :=
  let startMs := item.start.getTime
  let endMs := item.endD.getTime
  let normalized := normalizeRange startMs endMs
  let total := normalized.2 - normalized.1
  let elapsed := clamp (now - normalized.1) 0 total
  let ratio : ℚ := if total = 0 then 0 else (elapsed : ℚ) / (total : ℚ)
  (jsRound (ratio * 1000) : ℚ) / 10

/-- The `daysLeft` value computed by the dashboard's `ProgressBar`. -/
def progressBarDaysLeft (item : ProgressItem) (now : ℤ) : ℤ :=
  let normalized := normalizeRange item.start.getTime item.endD.getTime
  max 0 (jsCeil (((normalized.2 - now : ℤ) : ℚ) / (1000 * 60 * 60 * 24 : ℚ)))

/-- The spec's description of the percentage: the elapsed/total ratio with
`now` clamped into `[start, end]` before the ratio is taken.  Written from
the spec's words, to be compared with the source's `calculateProgress`. -/
def specClampedRatio (start endD : JSDate) (now : ℤ) : ℚ :=
  ((clamp now start.getTime endD.getTime - start.getTime : ℤ) : ℚ) /
    ((endD.getTime - start.getTime : ℤ) : ℚ)

/-! ## Helper lemmas about the percentage computation -/

lemma jsRound_intCast (z : ℤ) : jsRound ((z : ℚ)) = z := by
  rw [jsRound, Int.floor_int_add]
  norm_num

lemma jsRound_nonneg {q : ℚ} (h : 0 ≤ q) : 0 ≤ jsRound q := by
  rw [jsRound, Int.le_floor]
  push_cast
  linarith

lemma jsRound_mono {p q : ℚ} (h : p ≤ q) : jsRound p ≤ jsRound q :=
  Int.floor_mono (by linarith)

lemma jsRound_le_of_le_intCast {q : ℚ} {z : ℤ} (h : q ≤ (z : ℚ)) :
    jsRound q ≤ z := by
  have : jsRound q ≤ jsRound ((z : ℚ)) := jsRound_mono h
  rwa [jsRound_intCast] at this

/-- The ratio underlying `progressPercent`, with the `let`s expanded. -/
def progressRatio (startMs endMs now : ℤ) : ℚ :=
  if endMs - startMs = 0 then 0
  else ((min (max (now - startMs) 0) (endMs - startMs) : ℤ) : ℚ) /
    ((endMs - startMs : ℤ) : ℚ)

lemma progressPercent_eq_ratio (startMs endMs now : ℤ) :
    progressPercent startMs endMs now =
      (jsRound (progressRatio startMs endMs now * 1000) : ℚ) / 10 := by
  simp only [progressPercent, progressRatio]

lemma progressRatio_nonneg {startMs endMs : ℤ} (now : ℤ)
    (h : startMs ≤ endMs) : 0 ≤ progressRatio startMs endMs now := by
  unfold progressRatio
  split
  · exact le_refl 0
  · next htot =>
    apply div_nonneg
    · exact_mod_cast (by omega :
        (0 : ℤ) ≤ min (max (now - startMs) 0) (endMs - startMs))
    · exact_mod_cast (by omega : (0 : ℤ) ≤ endMs - startMs)

lemma progressRatio_le_one {startMs endMs : ℤ} (now : ℤ)
    (h : startMs ≤ endMs) : progressRatio startMs endMs now ≤ 1 := by
  unfold progressRatio
  split
  · norm_num
  · next htot =>
    have htot' : (0 : ℤ) < endMs - startMs := by omega
    rw [div_le_one (by exact_mod_cast htot')]
    exact_mod_cast min_le_right _ _

lemma progressPercent_nonneg {startMs endMs : ℤ} (now : ℤ)
    (h : startMs ≤ endMs) : 0 ≤ progressPercent startMs endMs now := by
  rw [progressPercent_eq_ratio]
  apply div_nonneg _ (by norm_num)
  exact_mod_cast jsRound_nonneg
    (by nlinarith [progressRatio_nonneg now h])

lemma progressPercent_le_hundred {startMs endMs : ℤ} (now : ℤ)
    (h : startMs ≤ endMs) : progressPercent startMs endMs now ≤ 100 := by
  rw [progressPercent_eq_ratio]
  rw [div_le_iff₀ (by norm_num : (0:ℚ) < 10)]
  have hr := progressRatio_le_one now h
  have : jsRound (progressRatio startMs endMs now * 1000) ≤ 1000 :=
    jsRound_le_of_le_intCast (by push_cast; nlinarith)
  calc (jsRound (progressRatio startMs endMs now * 1000) : ℚ)
      ≤ (1000 : ℤ) := by exact_mod_cast this
    _ = 100 * 10 := by norm_num

lemma progressRatio_mono {startMs endMs : ℤ} (h : startMs ≤ endMs)
    {n₁ n₂ : ℤ} (hn : n₁ ≤ n₂) :
    progressRatio startMs endMs n₁ ≤ progressRatio startMs endMs n₂ := by
  unfold progressRatio
  split
  · exact le_refl 0
  · next htot =>
    have htot' : (0 : ℚ) < ((endMs - startMs : ℤ) : ℚ) := by
      exact_mod_cast (by omega : (0 : ℤ) < endMs - startMs)
    have hmin : min (max (n₁ - startMs) 0) (endMs - startMs)
        ≤ min (max (n₂ - startMs) 0) (endMs - startMs) := by omega
    gcongr

lemma progressPercent_mono {startMs endMs : ℤ} (h : startMs ≤ endMs)
    {n₁ n₂ : ℤ} (hn : n₁ ≤ n₂) :
    progressPercent startMs endMs n₁ ≤ progressPercent startMs endMs n₂ := by
  rw [progressPercent_eq_ratio, progressPercent_eq_ratio]
  gcongr
  exact_mod_cast jsRound_mono (by nlinarith [progressRatio_mono h hn])

lemma progressRatio_of_now_le_start {startMs endMs : ℤ} (now : ℤ)
    (h : startMs ≤ endMs) (hn : now ≤ startMs) :
    progressRatio startMs endMs now = 0 := by
  have helapsed : min (max (now - startMs) 0) (endMs - startMs) = 0 := by omega
  unfold progressRatio
  rw [helapsed]
  split <;> norm_num

lemma progressPercent_of_now_le_start {startMs endMs : ℤ} (now : ℤ)
    (h : startMs ≤ endMs) (hn : now ≤ startMs) :
    progressPercent startMs endMs now = 0 := by
  rw [progressPercent_eq_ratio, progressRatio_of_now_le_start now h hn]
  norm_num [jsRound]

lemma progressPercent_of_end_le_now {startMs endMs : ℤ} (now : ℤ)
    (h : startMs < endMs) (hn : endMs ≤ now) :
    progressPercent startMs endMs now = 100 := by
  have helapsed : min (max (now - startMs) 0) (endMs - startMs)
      = endMs - startMs := by omega
  rw [progressPercent_eq_ratio]
  unfold progressRatio
  rw [helapsed, if_neg (by omega)]
  rw [div_self (by exact_mod_cast (by omega : endMs - startMs ≠ 0))]
  norm_num [jsRound]

lemma progressRatio_eq_specClampedRatio (s e : JSDate) (n : ℤ) :
    progressRatio s.getTime e.getTime n = specClampedRatio s e n := by
  unfold progressRatio specClampedRatio clamp
  split
  · next htot =>
    have hden : ((e.getTime - s.getTime : ℤ) : ℚ) = 0 := by exact_mod_cast htot
    rw [hden, div_zero]
  · next htot =>
    congr 1
    exact_mod_cast (by omega :
      min (max (n - s.getTime) 0) (e.getTime - s.getTime)
        = min (max n s.getTime) e.getTime - s.getTime)

/-! ## Claim theorems -/

/-- Claim C1: for every range with `start ≤ end` and every instant `now`, the
computed completion percentage lies in `[0, 100]` and equals the
elapsed/total ratio rounded to one decimal place, with `now` clamped into
`[start, end]` before the ratio is taken; for `start < end`, `now < start`
yields 0 and `now > end` yields 100. -/
theorem percent_in_range_eq_clamped_ratio (s e : JSDate) (n : ℤ)
    (h : s.getTime ≤ e.getTime) :
    (0 ≤ calculateProgress s e n ∧ calculateProgress s e n ≤ 100) ∧
    calculateProgress s e n
      = (jsRound (specClampedRatio s e n * 1000) : ℚ) / 10 ∧
    (s.getTime < e.getTime →
      (n < s.getTime → calculateProgress s e n = 0) ∧
      (e.getTime < n → calculateProgress s e n = 100)) := by
  unfold calculateProgress
  refine ⟨⟨progressPercent_nonneg n h, progressPercent_le_hundred n h⟩, ?_, ?_⟩
  · rw [progressPercent_eq_ratio, progressRatio_eq_specClampedRatio s e n]
  · intro hlt
    exact ⟨fun hn => progressPercent_of_now_le_start n h (le_of_lt hn),
           fun hn => progressPercent_of_end_le_now n hlt (le_of_lt hn)⟩

theorem percent_in_range_eq_clamped_ratio_witness :
    calculateProgress (JSDate.mk 2025 8 2 0 0 0 0)
      (JSDate.mk 2026 5 24 0 0 0 0) 0 = 0 :=
  ((percent_in_range_eq_clamped_ratio (JSDate.mk 2025 8 2 0 0 0 0)
      (JSDate.mk 2026 5 24 0 0 0 0) 0 (by decide)).2.2 (by decide)).1 (by decide)

/-- Claim C6: for every fixed `start ≤ end`, the completion percentage is
monotonically non-decreasing in `now` on `[start, end]`, and stays within
`[0, 100]` throughout. -/
theorem percent_monotone (s e : JSDate) (n₁ n₂ : ℤ)
    (h : s.getTime ≤ e.getTime) (h₁ : s.getTime ≤ n₁) (h₁₂ : n₁ ≤ n₂)
    (h₂ : n₂ ≤ e.getTime) :
    calculateProgress s e n₁ ≤ calculateProgress s e n₂ ∧
    (∀ n, s.getTime ≤ n → n ≤ e.getTime →
      0 ≤ calculateProgress s e n ∧ calculateProgress s e n ≤ 100) := by
  unfold calculateProgress
  exact ⟨progressPercent_mono h h₁₂,
    fun n _ _ => ⟨progressPercent_nonneg n h, progressPercent_le_hundred n h⟩⟩

theorem percent_monotone_witness :
    calculateProgress (JSDate.mk 2025 8 2 0 0 0 0)
        (JSDate.mk 2026 5 24 0 0 0 0) 1756771200000
      ≤ calculateProgress (JSDate.mk 2025 8 2 0 0 0 0)
        (JSDate.mk 2026 5 24 0 0 0 0) 1756771200001 :=
  (percent_monotone (JSDate.mk 2025 8 2 0 0 0 0) (JSDate.mk 2026 5 24 0 0 0 0)
    1756771200000 1756771200001
    (by decide) (by decide) (by decide) (by decide)).1

/-- Claim C7: for every instant `now`, when `end == start` the completion
percentage is 0 and the computation is defined (the zero-total branch is
taken, so no division by zero occurs). -/
theorem percent_zero_total (s e : JSDate) (n : ℤ)
    (h : e.getTime = s.getTime) : calculateProgress s e n = 0 := by
  unfold calculateProgress
  rw [progressPercent_eq_ratio]
  unfold progressRatio
  rw [if_pos (by omega)]
  norm_num [jsRound]

theorem percent_zero_total_witness :
    calculateProgress (JSDate.mk 2025 8 2 0 0 0 0)
      (JSDate.mk 2025 8 2 0 0 0 0) 1756771200000 = 0 :=
  percent_zero_total (JSDate.mk 2025 8 2 0 0 0 0)
    (JSDate.mk 2025 8 2 0 0 0 0) 1756771200000 (by decide)

lemma jsRound_mul_sub_div (D a b : ℤ) (hD : ((D : ℤ) : ℚ) ≠ 0) :
    jsRound (((D * a - D * b : ℤ) : ℚ) / ((D : ℤ) : ℚ)) = a - b := by
  have h : ((D * a - D * b : ℤ) : ℚ) / ((D : ℤ) : ℚ) = ((a - b : ℤ) : ℚ) := by
    push_cast
    field_simp
    ring
  rw [h, jsRound_intCast]

lemma calculateDateDiffInDays_eq (endD now : JSDate) :
    calculateDateDiffInDays endD now
      = max 0 (daysFromCivil endD.year (endD.month + 1) endD.day
          - daysFromCivil now.year (now.month + 1) now.day) := by
  simp only [calculateDateDiffInDays]
  rw [jsRound_mul_sub_div _ _ _ (by norm_num [MS_PER_DAY])]

/-- Claim C2: remaining time in the `days` unit is the whole-day difference
computed on calendar dates (each date's local year/month/day converted to a
date-only instant), rounded and floored at 0 — never raw millisecond
division; in particular `end` = 2026-06-24T00:00 with `now` =
2026-06-23T23:59 yields 1, not 0. -/
theorem timeLeft_days_calendar (endD now : JSDate) :
    calculateTimeLeft endD now .days = calculateDateDiffInDays endD now ∧
    calculateTimeLeft endD now .days
      = max 0 (daysFromCivil endD.year (endD.month + 1) endD.day
          - daysFromCivil now.year (now.month + 1) now.day) ∧
    calculateTimeLeft (JSDate.mk 2026 5 24 0 0 0 0)
      (JSDate.mk 2026 5 23 23 59 0 0) .days = 1 := by
  refine ⟨rfl, calculateDateDiffInDays_eq endD now, ?_⟩
  rw [show calculateTimeLeft (JSDate.mk 2026 5 24 0 0 0 0)
        (JSDate.mk 2026 5 23 23 59 0 0) .days
      = calculateDateDiffInDays (JSDate.mk 2026 5 24 0 0 0 0)
        (JSDate.mk 2026 5 23 23 59 0 0) from rfl,
    calculateDateDiffInDays_eq]
  decide

/-- Claim C3: for the dynamically switching semester target, `resolveRange`
returns `[termStart, cutoff]` strictly before the fixed cutoff instant and
`[cutoff, termEnd]` at or after it, and the end of the first sub-range equals
the start of the second (both are the cutoff instant). -/
theorem resolveRange_semester_cutoff (n₁ n₂ : ℤ)
    (h₁ : n₁ < (JSDate.mk 2026 1 2 11 45 0 0).getTime)
    (h₂ : (JSDate.mk 2026 1 2 11 45 0 0).getTime ≤ n₂) :
    resolveRange (items .semester) n₁
      = (JSDate.mk 2025 8 2 0 0 0 0, JSDate.mk 2026 1 2 11 45 0 0) ∧
    resolveRange (items .semester) n₂
      = (JSDate.mk 2026 1 2 11 45 0 0, JSDate.mk 2026 5 24 0 0 0 0) ∧
    (resolveRange (items .semester) n₁).2
      = (resolveRange (items .semester) n₂).1 ∧
    ((resolveRange (items .semester) n₁).2).getTime
      = (JSDate.mk 2026 1 2 11 45 0 0).getTime := by
  have e₁ : resolveRange (items .semester) n₁
      = (JSDate.mk 2025 8 2 0 0 0 0, JSDate.mk 2026 1 2 11 45 0 0) := by
    rw [show resolveRange (items .semester) n₁ = semesterGetRange n₁ from rfl]
    simp only [semesterGetRange]
    rw [if_neg (by omega)]
  have e₂ : resolveRange (items .semester) n₂
      = (JSDate.mk 2026 1 2 11 45 0 0, JSDate.mk 2026 5 24 0 0 0 0) := by
    rw [show resolveRange (items .semester) n₂ = semesterGetRange n₂ from rfl]
    simp only [semesterGetRange]
    rw [if_pos (by omega)]
  rw [e₁, e₂]
  exact ⟨rfl, rfl, rfl, rfl⟩

theorem resolveRange_semester_cutoff_witness :
    (resolveRange (items .semester) 1770032699999).2
      = (resolveRange (items .semester) 1770032700000).1 :=
  (resolveRange_semester_cutoff 1770032699999 1770032700000
    (by decide) (by decide)).2.2.1

/-- Claim C10: on the share surface, every resolved range has its start
strictly before its end — the static year and school entries and both
semester sub-ranges are well-ordered — so the share page's progress
calculation never receives an inverted or zero-length range even though it
performs no normalization. -/
theorem share_ranges_well_ordered (t : Target) (n : ℤ) :
    ((resolveRange (items t) n).1).getTime
      < ((resolveRange (items t) n).2).getTime := by
  cases t with
  | semester =>
    rw [show resolveRange (items .semester) n = semesterGetRange n from rfl]
    simp only [semesterGetRange]
    split
    · decide
    · decide
  | year =>
    rw [show resolveRange (items .year) n
        = (JSDate.mk 2025 8 2 0 0 0 0, JSDate.mk 2026 5 24 0 0 0 0) from rfl]
    decide
  | school =>
    rw [show resolveRange (items .school) n
        = (JSDate.mk 2023 8 5 0 0 0 0, JSDate.mk 2027 5 25 0 0 0 0) from rfl]
    decide

lemma jsCeil_max_zero_div (Δ c : ℤ) (hc : (0 : ℤ) < c) :
    jsCeil (((max 0 Δ : ℤ) : ℚ) / ((c : ℤ) : ℚ))
      = max 0 (jsCeil ((Δ : ℚ) / ((c : ℤ) : ℚ))) := by
  have hc' : (0 : ℚ) < ((c : ℤ) : ℚ) := by exact_mod_cast hc
  rcases le_or_lt Δ 0 with hΔ | hΔ
  · rw [max_eq_left hΔ]
    have h1 : jsCeil (((0 : ℤ) : ℚ) / ((c : ℤ) : ℚ)) = 0 := by
      norm_num [jsCeil]
    have h2 : jsCeil ((Δ : ℚ) / ((c : ℤ) : ℚ)) ≤ 0 := by
      rw [jsCeil]
      refine Int.ceil_le.mpr ?_
      push_cast
      exact div_nonpos_of_nonpos_of_nonneg (by exact_mod_cast hΔ) hc'.le
    rw [h1, max_eq_left h2]
  · rw [max_eq_right hΔ.le]
    have h2 : 0 < jsCeil ((Δ : ℚ) / ((c : ℤ) : ℚ)) := by
      rw [jsCeil]
      refine Int.ceil_pos.mpr ?_
      exact div_pos (by exact_mod_cast hΔ) hc'
    rw [max_eq_right h2.le]

lemma jsCeil_pos_of_lt (Δ c : ℤ) (hc : (0 : ℤ) < c) (hΔ : 0 < Δ) :
    1 ≤ jsCeil ((Δ : ℚ) / ((c : ℤ) : ℚ)) := by
  have : 0 < jsCeil ((Δ : ℚ) / ((c : ℤ) : ℚ)) := by
    rw [jsCeil]
    exact Int.ceil_pos.mpr
      (div_pos (by exact_mod_cast hΔ) (by exact_mod_cast hc))
  omega

/-- Claim C8: remaining time in the `hours` (resp. `seconds`) unit is the
ceiling of the remaining milliseconds over the hour (resp. second) length,
floored at 0; remaining time is never negative for any unit even when
`now > end`, and for sub-day units it is at least 1 whenever `now` is
strictly before `end`. -/
theorem timeLeft_subday_ceil_nonneg (endD now : JSDate) :
    calculateTimeLeft endD now .hours
      = max 0 (jsCeil (((endD.getTime - now.getTime : ℤ) : ℚ)
          / ((3600000 : ℤ) : ℚ))) ∧
    calculateTimeLeft endD now .seconds
      = max 0 (jsCeil (((endD.getTime - now.getTime : ℤ) : ℚ)
          / ((1000 : ℤ) : ℚ))) ∧
    (∀ u, 0 ≤ calculateTimeLeft endD now u) ∧
    (now.getTime < endD.getTime →
      1 ≤ calculateTimeLeft endD now .hours ∧
      1 ≤ calculateTimeLeft endD now .seconds) := by
  have hhours : calculateTimeLeft endD now .hours
      = jsCeil (((max 0 (endD.getTime - now.getTime) : ℤ) : ℚ)
          / ((3600000 : ℤ) : ℚ)) := by
    simp only [calculateTimeLeft]
    norm_num
  have hsecs : calculateTimeLeft endD now .seconds
      = jsCeil (((max 0 (endD.getTime - now.getTime) : ℤ) : ℚ)
          / ((1000 : ℤ) : ℚ)) := by
    simp only [calculateTimeLeft]
    norm_num
  refine ⟨?_, ?_, ?_, ?_⟩
  · rw [hhours, jsCeil_max_zero_div _ _ (by norm_num)]
  · rw [hsecs, jsCeil_max_zero_div _ _ (by norm_num)]
  · intro u
    cases u with
    | days =>
      rw [show calculateTimeLeft endD now .days
          = calculateDateDiffInDays endD now from rfl,
        calculateDateDiffInDays_eq]
      omega
    | hours =>
      rw [hhours, jsCeil]
      exact Int.ceil_nonneg (div_nonneg
        (by exact_mod_cast le_max_left 0 (endD.getTime - now.getTime))
        (by norm_num))
    | seconds =>
      rw [hsecs, jsCeil]
      exact Int.ceil_nonneg (div_nonneg
        (by exact_mod_cast le_max_left 0 (endD.getTime - now.getTime))
        (by norm_num))
  · intro hlt
    constructor
    · rw [hhours, max_eq_right (by omega : 0 ≤ endD.getTime - now.getTime)]
      exact jsCeil_pos_of_lt _ _ (by norm_num) (by omega)
    · rw [hsecs, max_eq_right (by omega : 0 ≤ endD.getTime - now.getTime)]
      exact jsCeil_pos_of_lt _ _ (by norm_num) (by omega)

theorem timeLeft_subday_ceil_nonneg_witness :
    1 ≤ calculateTimeLeft (JSDate.mk 2026 5 24 0 0 0 0)
        (JSDate.mk 2026 5 23 23 59 0 0) .hours ∧
    1 ≤ calculateTimeLeft (JSDate.mk 2026 5 24 0 0 0 0)
        (JSDate.mk 2026 5 23 23 59 0 0) .seconds :=
  (timeLeft_subday_ceil_nonneg (JSDate.mk 2026 5 24 0 0 0 0)
    (JSDate.mk 2026 5 23 23 59 0 0)).2.2.2 (by decide)

/-- Claim C9: the dashboard's school-year entry has `end` before `start`,
and the dashboard normalizes every entry whose `end` is at or before its
`start` by swapping the bounds before any progress computation:
`normalizeRange` swaps exactly when `end <= start`, leaves the range
unchanged otherwise, always yields an ordered range, and the dashboard's
percentage is computed on the normalized range. -/
theorem dashboard_normalizes_inverted_range (s e : ℤ) :
    dashSchoolYearItem.endD.getTime < dashSchoolYearItem.start.getTime ∧
    (e ≤ s → normalizeRange s e = (e, s)) ∧
    (s < e → normalizeRange s e = (s, e)) ∧
    (normalizeRange s e).1 ≤ (normalizeRange s e).2 ∧
    (∀ item now, progressBarPercent item now
      = progressPercent
          (normalizeRange item.start.getTime item.endD.getTime).1
          (normalizeRange item.start.getTime item.endD.getTime).2 now) := by
  refine ⟨by decide, ?_, ?_, ?_, ?_⟩
  · intro h
    simp only [normalizeRange, if_pos h]
  · intro h
    simp only [normalizeRange, if_neg (by omega : ¬ e ≤ s)]
  · simp only [normalizeRange]
    split <;> omega
  · intro item now
    rfl

theorem dashboard_normalizes_inverted_range_witness :
    normalizeRange 10 3 = (3, 10) :=
  (dashboard_normalizes_inverted_range 10 3).2.1 (by omega)

/-- Claim C4 (code bug): the claim requires both share-surface entry points
to report not-found for every pair whose target is not a registry id, but
`items["toString"]` is the prototype-inherited `Object.prototype.toString` —
truthy — so for target `"toString"` with a valid unit both entry points pass
the `!items[target]` guard and then throw a `TypeError` (reading `getTime`
of `undefined`) instead of reporting not-found.  Targets that are no object
key at all, and invalid units (the guard's second disjunct fires before any
property of the inherited value is touched), do report not-found from both
entry points, and a valid pair reports neither not-found nor a fault. -/
theorem share_surface_prototype_leak :
    generateMetadata "toString" "days" (JSDate.mk 2026 0 1 0 0 0 0)
      = .thrown ∧
    sharePage "toString" "days" (JSDate.mk 2026 0 1 0 0 0 0) = .thrown ∧
    generateMetadata "__proto__" "hours" (JSDate.mk 2026 0 1 0 0 0 0)
      = .thrown ∧
    sharePage "__proto__" "hours" (JSDate.mk 2026 0 1 0 0 0 0) = .thrown ∧
    generateMetadata "bogus" "days" (JSDate.mk 2026 0 1 0 0 0 0)
      = .value { title := "Not Found" } ∧
    sharePage "bogus" "days" (JSDate.mk 2026 0 1 0 0 0 0) = .value none ∧
    generateMetadata "toString" "centuries" (JSDate.mk 2026 0 1 0 0 0 0)
      = .value { title := "Not Found" } ∧
    sharePage "toString" "centuries" (JSDate.mk 2026 0 1 0 0 0 0)
      = .value none ∧
    sharePage "semester" "days" (JSDate.mk 2026 0 1 0 0 0 0) ≠ .thrown ∧
    sharePage "semester" "days" (JSDate.mk 2026 0 1 0 0 0 0)
      ≠ .value none := by
  decide

lemma progressBar_eq_progressPercent (item : ProgressItem) (now : ℤ)
    (h : item.start.getTime < item.endD.getTime) :
    progressBarPercent item now
      = progressPercent item.start.getTime item.endD.getTime now := by
  have hn : normalizeRange item.start.getTime item.endD.getTime
      = (item.start.getTime, item.endD.getTime) := by
    simp only [normalizeRange]
    rw [if_neg (by omega : ¬ item.endD.getTime ≤ item.start.getTime)]
  simp only [progressBarPercent, hn, clamp, progressPercent]

lemma jsCeil_day_boundary (a t : ℤ) (h0 : 0 ≤ t) (h1 : t < 86400000) :
    jsCeil (((86400000 * a - t : ℤ) : ℚ) / (86400000 : ℚ)) = a := by
  have hq : ((86400000 * a - t : ℤ) : ℚ) / (86400000 : ℚ)
      = -(t : ℚ) / 86400000 + (a : ℚ) := by
    push_cast
    field_simp
    ring
  rw [jsCeil, hq, Int.ceil_add_int]
  have hz : ⌈-(t : ℚ) / 86400000⌉ = 0 := by
    rw [Int.ceil_eq_zero_iff, Set.mem_Ioc]
    constructor
    · have : (t : ℚ) / 86400000 < 1 := by
        rw [div_lt_one (by norm_num)]
        exact_mod_cast h1
      rw [neg_div]
      linarith
    · apply div_nonpos_of_nonpos_of_nonneg
      · exact_mod_cast neg_nonpos_of_nonneg (by exact_mod_cast h0)
      · norm_num
  rw [hz, zero_add]

/-- Claim C5 (amended): of the targets appearing on both surfaces, the
high-school/school pair computes identically — for every instant `now`, the
share page's `school` target yields the same completion percentage and the
same days-remaining value as the dashboard's high-school entry.  (The
semester and school-year/year pairs disagree; see the counterexample.) -/
theorem share_dashboard_school_agree (now : JSDate) (hv : now.Valid) :
    calculateProgress (resolveRange (items .school) now.getTime).1
        (resolveRange (items .school) now.getTime).2 now.getTime
      = progressBarPercent dashHighSchoolItem now.getTime ∧
    calculateTimeLeft (resolveRange (items .school) now.getTime).2 now .days
      = progressBarDaysLeft dashHighSchoolItem now.getTime := by
  have hres : resolveRange (items .school) now.getTime
      = (JSDate.mk 2023 8 5 0 0 0 0, JSDate.mk 2027 5 25 0 0 0 0) := rfl
  rw [hres]
  constructor
  · rw [progressBar_eq_progressPercent _ _ (by decide)]
    rfl
  · -- days: share side is the calendar difference, dashboard side the raw
    -- millisecond ceiling; they agree because the shared end is a midnight.
    obtain ⟨hm0, hm1, hd0, hd1, hh0, hh1, hmin0, hmin1, hs0, hs1, hms0, hms1⟩ := hv
    have hshare : calculateTimeLeft (JSDate.mk 2027 5 25 0 0 0 0) now .days
        = max 0 (20994 - daysFromCivil now.year (now.month + 1) now.day) := by
      rw [show calculateTimeLeft (JSDate.mk 2027 5 25 0 0 0 0) now .days
          = calculateDateDiffInDays (JSDate.mk 2027 5 25 0 0 0 0) now from rfl,
        calculateDateDiffInDays_eq]
      norm_num [show daysFromCivil 2027 6 25 = 20994 from by decide]
    have hnorm : normalizeRange dashHighSchoolItem.start.getTime
        dashHighSchoolItem.endD.getTime = (1693872000000, 1813881600000) := by
      decide
    have hnow : now.getTime = 86400000 * daysFromCivil now.year (now.month + 1) now.day
        + (3600000 * now.hour + 60000 * now.minute + 1000 * now.sec + now.ms) := by
      simp only [JSDate.getTime, MS_PER_DAY]
      ring
    have harg : (1813881600000
          - (86400000 * daysFromCivil now.year (now.month + 1) now.day
            + (3600000 * now.hour + 60000 * now.minute + 1000 * now.sec + now.ms)) : ℤ)
        = 86400000 * (20994 - daysFromCivil now.year (now.month + 1) now.day)
          - (3600000 * now.hour + 60000 * now.minute + 1000 * now.sec + now.ms) := by
      ring
    have hdash : progressBarDaysLeft dashHighSchoolItem now.getTime
        = max 0 (20994 - daysFromCivil now.year (now.month + 1) now.day) := by
      simp only [progressBarDaysLeft, hnorm]
      rw [hnow, harg]
      rw [show (1000 * 60 * 60 * 24 : ℚ) = 86400000 from by norm_num]
      rw [jsCeil_day_boundary _ _ (by omega) (by omega)]
    rw [hshare, hdash]

theorem share_dashboard_school_agree_witness :
    calculateProgress
        (resolveRange (items .school) (JSDate.mk 2026 0 1 0 0 0 0).getTime).1
        (resolveRange (items .school) (JSDate.mk 2026 0 1 0 0 0 0).getTime).2
        (JSDate.mk 2026 0 1 0 0 0 0).getTime
      = progressBarPercent dashHighSchoolItem
          (JSDate.mk 2026 0 1 0 0 0 0).getTime :=
  (share_dashboard_school_agree (JSDate.mk 2026 0 1 0 0 0 0) (by decide)).1

/-- Claim C5 counterexample: the share page does NOT compute the same values
as the dashboard for every target appearing on both surfaces.  At
`now` = Feb 2 2026 00:00 the dashboard's semester entry shows 100% while the
share page's semester target shows 99.7%; at `now` = Jan 1 2026 the
dashboard's school-year entry shows 100% with 0 days left while the share
page's year target shows 41% with 174 days left. -/
theorem share_dashboard_disagree :
    calculateProgress
        (resolveRange (items .semester) (JSDate.mk 2026 1 2 0 0 0 0).getTime).1
        (resolveRange (items .semester) (JSDate.mk 2026 1 2 0 0 0 0).getTime).2
        (JSDate.mk 2026 1 2 0 0 0 0).getTime
      ≠ progressBarPercent dashSemesterItem
          (JSDate.mk 2026 1 2 0 0 0 0).getTime ∧
    calculateProgress
        (resolveRange (items .year) (JSDate.mk 2026 0 1 0 0 0 0).getTime).1
        (resolveRange (items .year) (JSDate.mk 2026 0 1 0 0 0 0).getTime).2
        (JSDate.mk 2026 0 1 0 0 0 0).getTime
      ≠ progressBarPercent dashSchoolYearItem
          (JSDate.mk 2026 0 1 0 0 0 0).getTime ∧
    calculateTimeLeft
        (resolveRange (items .year) (JSDate.mk 2026 0 1 0 0 0 0).getTime).2
        (JSDate.mk 2026 0 1 0 0 0 0) .days
      ≠ progressBarDaysLeft dashSchoolYearItem
          (JSDate.mk 2026 0 1 0 0 0 0).getTime := by
  rw [show (JSDate.mk 2026 1 2 0 0 0 0).getTime = 1769990400000 from by decide,
    show (JSDate.mk 2026 0 1 0 0 0 0).getTime = 1767225600000 from by decide]
  have hresA : resolveRange (items .semester) 1769990400000
      = (JSDate.mk 2025 8 2 0 0 0 0, JSDate.mk 2026 1 2 11 45 0 0) := by
    rw [show resolveRange (items .semester) 1769990400000
        = semesterGetRange 1769990400000 from rfl]
    simp only [semesterGetRange]
    rw [if_neg (show ¬ (JSDate.mk 2026 1 2 11 45 0 0).getTime ≤ 1769990400000
      from by decide)]
  have hresY : resolveRange (items .year) 1767225600000
      = (JSDate.mk 2025 8 2 0 0 0 0, JSDate.mk 2026 5 24 0 0 0 0) := rfl
  rw [hresA, hresY]
  have h1 : calculateProgress (JSDate.mk 2025 8 2 0 0 0 0)
      (JSDate.mk 2026 1 2 11 45 0 0) 1769990400000 = 997/10 := by
    rw [calculateProgress,
      show (JSDate.mk 2025 8 2 0 0 0 0).getTime = 1756771200000 from by decide,
      show (JSDate.mk 2026 1 2 11 45 0 0).getTime = 1770032700000 from by decide]
    norm_num [progressPercent, min_def, max_def, jsRound, Int.floor_eq_iff]
  have h2 : progressBarPercent dashSemesterItem 1769990400000 = 100 := by
    rw [progressBarPercent,
      show dashSemesterItem.start.getTime = 1756771200000 from by decide,
      show dashSemesterItem.endD.getTime = 1769990400000 from by decide]
    norm_num [normalizeRange, clamp, min_def, max_def, jsRound, Int.floor_eq_iff]
  have h3 : calculateProgress (JSDate.mk 2025 8 2 0 0 0 0)
      (JSDate.mk 2026 5 24 0 0 0 0) 1767225600000 = 41 := by
    rw [calculateProgress,
      show (JSDate.mk 2025 8 2 0 0 0 0).getTime = 1756771200000 from by decide,
      show (JSDate.mk 2026 5 24 0 0 0 0).getTime = 1782259200000 from by decide]
    norm_num [progressPercent, min_def, max_def, jsRound, Int.floor_eq_iff]
  have h4 : progressBarPercent dashSchoolYearItem 1767225600000 = 100 := by
    rw [progressBarPercent,
      show dashSchoolYearItem.start.getTime = 1756771200000 from by decide,
      show dashSchoolYearItem.endD.getTime = 1750723200000 from by decide]
    norm_num [normalizeRange, clamp, min_def, max_def, jsRound, Int.floor_eq_iff]
  have h5 : calculateTimeLeft (JSDate.mk 2026 5 24 0 0 0 0)
      (JSDate.mk 2026 0 1 0 0 0 0) .days = 174 := by
    rw [show calculateTimeLeft (JSDate.mk 2026 5 24 0 0 0 0)
        (JSDate.mk 2026 0 1 0 0 0 0) .days
      = calculateDateDiffInDays (JSDate.mk 2026 5 24 0 0 0 0)
        (JSDate.mk 2026 0 1 0 0 0 0) from rfl, calculateDateDiffInDays_eq]
    decide
  have h6 : progressBarDaysLeft dashSchoolYearItem 1767225600000 = 0 := by
    simp only [progressBarDaysLeft,
      show normalizeRange dashSchoolYearItem.start.getTime
          dashSchoolYearItem.endD.getTime
        = (1750723200000, 1756771200000) from by decide]
    norm_num [jsCeil, Int.ceil_le]
  rw [h1, h2, h3, h4, h5, h6]
  refine ⟨by norm_num, by norm_num, by norm_num⟩
